import Mathlib

/-!
Shallow embedding of `endpoints.py` of FinalProjectBackend: a FastAPI + sqlite3
CRUD backend with three tables (`batch_id`, `centra`, `delivery`).

Modelling conventions:
* A table is a `List` of typed rows in insertion (rowid) order; `fetchone` on a
  `WHERE key = ?` query is `List.find?`, `fetchall` is `List.filter`,
  `UPDATE ... WHERE key = ?` maps the modification over the matching rows, and
  `DELETE ... WHERE key = ?` keeps the non-matching rows.
* `AUTOINCREMENT` primary keys are modelled by a monotone counter per table;
  `cursor.lastrowid` is the id given to the inserted row.
* `DATETIME` values are modelled as integers with the usual order (ISO-8601
  strings compare chronologically).
* SQL `NULL` is `Option.none`; a comparison `col = ?` whose parameter is NULL
  matches no row, as in SQL.
* `raise HTTPException(status, detail)` is `Except.error` carrying the status
  and detail; a mutating handler returns the response paired with the store it
  leaves behind.
* The pydantic response models are records with exactly the source's
  required and optional fields. Where a handler constructs a response model
  with a required field missing or None - `Batch(Batch_ID=batch_id)` in
  `add_batch` and `update_package_id`, the per-row `Batch(Batch_ID=...)` of
  `get_all_batches_from_centra`, and the stage GETs reading NULL columns -
  pydantic raises ValidationError inside the handler; the request ends in a
  500 after whatever SQL was already executed and committed. This is embedded
  as an explicit 500 error. Request-side schema validation happens before a
  handler runs and is outside this embedding.
-/

namespace Moringa

/-- A stored DATETIME value, totally ordered. -/
abbrev Time := Int

/-- HTTPException: status code and detail message. -/
structure HTTPError where
  status : Nat
  detail : String
  deriving Repr, DecidableEq

/-- A row of the `batch_id` table. `RawWeight`, `InTimeRaw`, `Status` and
`Centra_ID` are NOT NULL; every other non-key column is nullable. -/
structure BatchRow where
  Batch_ID : Nat
  RawWeight : Int
  InTimeRaw : Time
  InTimeWet : Option Time := none
  OutTimeWet : Option Time := none
  WetWeight : Option Int := none
  InTimeDry : Option Time := none
  OutTimeDry : Option Time := none
  DryWeight : Option Int := none
  InTimePowder : Option Time := none
  OutTimePowder : Option Time := none
  PowderWeight : Option Int := none
  Status : String
  Centra_ID : Nat
  Package_ID : Option Nat := none
  WeightRescale : Option Int := none
  deriving Repr, DecidableEq

/-- A row of the `centra` table; all columns NOT NULL. -/
structure CentraRow where
  Centra_ID : Nat
  CentraName : String
  CentraAddress : String
  NumberOfEmployees : Int
  deriving Repr, DecidableEq

/-- A row of the `delivery` table; only `OutDeliveryTime` is nullable.
The schema has no `WeightRescale` column (that column lives on `batch_id`). -/
structure DeliveryRow where
  Package_ID : Nat
  Status : String
  InDeliveryTime : Time
  OutDeliveryTime : Option Time := none
  ExpeditionType : String
  deriving Repr, DecidableEq

/-- The persistent store: the three tables plus the AUTOINCREMENT counters. -/
@[ext]
structure DB where
  batches : List BatchRow
  centras : List CentraRow
  deliveries : List DeliveryRow
  nextBatchId : Nat := 1
  nextCentraId : Nat := 1
  nextPackageId : Nat := 1
  deriving Repr, DecidableEq

/-! ### Pydantic models (request and response records) -/

/-- Response model `Batch`. `RawWeight`, `InTimeRaw`, `Status` and
`Centra_ID` are required (no default); the stage, package and rescale fields
are Optional with default None, as declared in the source. A handler that
constructs it without the required fields (`add_batch`, `update_package_id`,
`get_all_batches_from_centra`) raises pydantic ValidationError instead of
producing a record. -/
structure Batch where
  Batch_ID : Nat
  RawWeight : Int
  InTimeRaw : Time
  InTimeWet : Option Time := none
  OutTimeWet : Option Time := none
  WetWeight : Option Int := none
  InTimeDry : Option Time := none
  OutTimeDry : Option Time := none
  DryWeight : Option Int := none
  InTimePowder : Option Time := none
  OutTimePowder : Option Time := none
  PowderWeight : Option Int := none
  Status : String
  Centra_ID : Nat
  Package_ID : Option Nat := none
  WeightRescale : Option Int := none
  deriving Repr, DecidableEq

/-- Response model `RawWeight`. -/
structure RawWeight where
  RawWeight : Int
  InTimeRaw : Time
  deriving Repr, DecidableEq

/-- Response model `WetWeight`; all three fields are required (non-Optional)
in the source, so building it from NULL columns raises ValidationError. -/
structure WetWeight where
  WetWeight : Int
  InTimeWet : Time
  OutTimeWet : Time
  deriving Repr, DecidableEq

/-- Response model `DryWeight`; all three fields required, as `WetWeight`. -/
structure DryWeight where
  DryWeight : Int
  InTimeDry : Time
  OutTimeDry : Time
  deriving Repr, DecidableEq

/-- Response model `PowderWeight`; all three fields required, as
`WetWeight`. -/
structure PowderWeight where
  PowderWeight : Int
  InTimePowder : Time
  OutTimePowder : Time
  deriving Repr, DecidableEq

/-- Response model `DeliveryInfo`. -/
structure DeliveryInfo where
  Package_ID : Nat
  Status : String
  InDeliveryTime : Time
  ExpeditionType : String
  deriving Repr, DecidableEq

/-- Request/response model `UpdateStatus`. -/
structure UpdateStatus where
  Status : String
  deriving Repr, DecidableEq

/-- Request/response model `OutDelivery`. -/
structure OutDelivery where
  OutDeliveryTime : Time
  WeightRescale : Int
  deriving Repr, DecidableEq

/-- Request/response model `BatchUpdateStatus`. -/
structure BatchUpdateStatus where
  Batch_IDs : List Nat
  Status : String
  deriving Repr, DecidableEq

/-- Request model `AddWetWeight`. -/
structure AddWetWeight where
  InTimeWet : Time
  OutTimeWet : Time
  WetWeight : Int
  deriving Repr, DecidableEq

/-- Request model `AddDryWeight`. -/
structure AddDryWeight where
  InTimeDry : Time
  OutTimeDry : Time
  DryWeight : Int
  deriving Repr, DecidableEq

/-- Request model `AddPowderWeight`. -/
structure AddPowderWeight where
  InTimePowder : Time
  OutTimePowder : Time
  PowderWeight : Int
  deriving Repr, DecidableEq

/-- Response model `WeightInfo`. -/
structure WeightInfo where
  Batch_ID : Nat
  RawWeight : Int
  InTimeRaw : Time
  deriving Repr, DecidableEq

/-- Request model `NewBatch` (POST /batch body). -/
structure NewBatch where
  RawWeight : Int
  Status : String
  Centra_ID : Nat
  InTimeRaw : Time
  deriving Repr, DecidableEq

/-- Request model `NewPackage` (POST /package body). -/
structure NewPackage where
  InDeliveryTime : Time
  ExpeditionType : String
  Status : String
  deriving Repr, DecidableEq

/-- Request model `UpdatePackageID`. -/
structure UpdatePackageID where
  Package_ID : Nat
  deriving Repr, DecidableEq

/-- Response model `Centra`. -/
structure Centra where
  Centra_ID : Nat
  CentraName : String
  CentraAddress : String
  NumberOfEmployees : Int
  deriving Repr, DecidableEq

/-- Request model `NewCentra` (POST /centra body). -/
structure NewCentra where
  CentraName : String
  CentraAddress : String
  NumberOfEmployees : Int
  deriving Repr, DecidableEq

/-- Request model `UpdateCentra`: every field optional. A `none` field was not
present in the request body (`dict(exclude_unset=True)` drops it). -/
structure UpdateCentra where
  CentraName : Option String := none
  CentraAddress : Option String := none
  NumberOfEmployees : Option Int := none
  deriving Repr, DecidableEq

/-- SQL equality of a NOT NULL column against a possibly-NULL parameter:
`col = NULL` matches no row. -/
def nullEq (v : Nat) (p : Option Nat) : Bool :=
  match p with
  | none => false
  | some x => v == x

/-- The full `Batch` record a handler builds from a complete `batch_id` row
(`get_all_batches`, `delete_batch`). -/
def BatchRow.toResponse (b : BatchRow) : Batch :=
  { Batch_ID := b.Batch_ID
    RawWeight := b.RawWeight
    InTimeRaw := b.InTimeRaw
    InTimeWet := b.InTimeWet
    OutTimeWet := b.OutTimeWet
    WetWeight := b.WetWeight
    InTimeDry := b.InTimeDry
    OutTimeDry := b.OutTimeDry
    DryWeight := b.DryWeight
    InTimePowder := b.InTimePowder
    OutTimePowder := b.OutTimePowder
    PowderWeight := b.PowderWeight
    Status := b.Status
    Centra_ID := b.Centra_ID
    Package_ID := b.Package_ID
    WeightRescale := b.WeightRescale }

/-- The `Centra` record built from a `centra` row. -/
def CentraRow.toResponse (c : CentraRow) : Centra :=
  { Centra_ID := c.Centra_ID
    CentraName := c.CentraName
    CentraAddress := c.CentraAddress
    NumberOfEmployees := c.NumberOfEmployees }

/-- The `DeliveryInfo` record built from a `delivery` row. -/
def DeliveryRow.toInfo (d : DeliveryRow) : DeliveryInfo :=
  { Package_ID := d.Package_ID
    Status := d.Status
    InDeliveryTime := d.InDeliveryTime
    ExpeditionType := d.ExpeditionType }

/-! ### FastAPI endpoints -/

/-- GET /batches: `SELECT * FROM batch_id`, every row mapped to a full
`Batch` record. -/
def get_all_batches (db : DB) : List Batch :=
  db.batches.map BatchRow.toResponse

/-- GET /batch/:batch_id/raw. -/
def get_raw_weight (db : DB) (batch_id : Nat) : Except HTTPError RawWeight :=
  match db.batches.find? (fun b => b.Batch_ID == batch_id) with
  | none => .error ⟨404, "Batch not found"⟩
  | some raw => .ok ⟨raw.RawWeight, raw.InTimeRaw⟩

/-- GET /batch/:batch_id/wet. A found row's wet columns go straight into the
`WetWeight` response model, whose fields are required: if any of them is
NULL, pydantic raises ValidationError and the request ends in a 500. -/
def get_wet_weight (db : DB) (batch_id : Nat) : Except HTTPError WetWeight :=
  match db.batches.find? (fun b => b.Batch_ID == batch_id) with
  | none => .error ⟨404, "Batch not found"⟩
  | some wet =>
    match wet.WetWeight, wet.InTimeWet, wet.OutTimeWet with
    | some v, some i, some o => .ok ⟨v, i, o⟩
    | _, _, _ => .error ⟨500, "Internal Server Error"⟩

/-- GET /batch/:batch_id/dry; NULL columns fail validation as in
`get_wet_weight`. -/
def get_dry_weight (db : DB) (batch_id : Nat) : Except HTTPError DryWeight :=
  match db.batches.find? (fun b => b.Batch_ID == batch_id) with
  | none => .error ⟨404, "Batch not found"⟩
  | some dry =>
    match dry.DryWeight, dry.InTimeDry, dry.OutTimeDry with
    | some v, some i, some o => .ok ⟨v, i, o⟩
    | _, _, _ => .error ⟨500, "Internal Server Error"⟩

/-- GET /batch/:batch_id/powder; NULL columns fail validation as in
`get_wet_weight`. -/
def get_powder_weight (db : DB) (batch_id : Nat) : Except HTTPError PowderWeight :=
  match db.batches.find? (fun b => b.Batch_ID == batch_id) with
  | none => .error ⟨404, "Batch not found"⟩
  | some powder =>
    match powder.PowderWeight, powder.InTimePowder, powder.OutTimePowder with
    | some v, some i, some o => .ok ⟨v, i, o⟩
    | _, _, _ => .error ⟨500, "Internal Server Error"⟩

/-- GET /packages. -/
def get_all_packages (db : DB) : List DeliveryInfo :=
  db.deliveries.map DeliveryRow.toInfo

/-- PUT /package/:package_id/status: unconditional UPDATE, echoes the body. -/
def update_package_status (db : DB) (package_id : Nat) (status : UpdateStatus) :
    UpdateStatus × DB :=
  (status,
   { db with deliveries := db.deliveries.map fun d =>
       if d.Package_ID == package_id then { d with Status := status.Status } else d })

/-- PUT /batch/:batch_id/status: resolves the batch row (404 if absent), takes
its `Package_ID` (possibly NULL) and runs
`UPDATE delivery SET Status = ? WHERE Package_ID = ?` with it; echoes the
body. -/
def update_delivery_status (db : DB) (batch_id : Nat) (status : UpdateStatus) :
    Except HTTPError UpdateStatus × DB :=
  match db.batches.find? (fun b => b.Batch_ID == batch_id) with
  | none => (.error ⟨404, "Batch not found"⟩, db)
  | some row =>
    (.ok status,
     { db with deliveries := db.deliveries.map fun d =>
         if nullEq d.Package_ID row.Package_ID then { d with Status := status.Status } else d })

/-- PUT /batch/:batch_id/outdelivery. The handler runs
`UPDATE delivery SET OutDeliveryTime = ?, WeightRescale = ? WHERE Package_ID =
(SELECT Package_ID FROM batch_id WHERE Batch_ID = ?)`, but the `delivery`
schema created by `create_new_database` has no `WeightRescale` column
(`WeightRescale` is a column of `batch_id`), so sqlite3 raises
`OperationalError: no such column: WeightRescale` when preparing the
statement, before touching any row; the handler does not catch it, so the
request fails with a server error and the store is unchanged. -/
def update_outdelivery (db : DB) (_batch_id : Nat) (_outdelivery : OutDelivery) :
    Except HTTPError OutDelivery × DB :=
  (.error ⟨500, "no such column: WeightRescale"⟩, db)

/-- PUT /batches/status: one UPDATE per listed id, no existence check, echoes
the whole body. -/
def update_batches_status (db : DB) (batch_update : BatchUpdateStatus) :
    BatchUpdateStatus × DB :=
  let rows :=
    batch_update.Batch_IDs.foldl
      (fun rows batch_id => rows.map fun b =>
        if b.Batch_ID == batch_id then { b with Status := batch_update.Status } else b)
      db.batches
  (batch_update, { db with batches := rows })

/-- The `ORDER BY InTimeRaw DESC` comparison: a row sorts before another when
its raw in-time is at least the other's. -/
def byInTimeRawDesc (x y : BatchRow) : Prop :=
  y.InTimeRaw ≤ x.InTimeRaw

instance : DecidableRel byInTimeRawDesc :=
  fun x y => inferInstanceAs (Decidable (y.InTimeRaw ≤ x.InTimeRaw))

instance : IsTotal BatchRow byInTimeRawDesc :=
  ⟨fun x y => Int.le_total y.InTimeRaw x.InTimeRaw⟩

instance : IsTrans BatchRow byInTimeRawDesc :=
  ⟨fun _ _ _ hab hbc => le_trans hbc hab⟩

/-- The rows of `batch_id` with the given `Centra_ID`, ordered by `InTimeRaw`
descending (the result set of the weights query before `LIMIT 7`). -/
def centraBatchesSorted (db : DB) (centra_id : Nat) : List BatchRow :=
  (db.batches.filter (fun b => b.Centra_ID == centra_id)).insertionSort byInTimeRawDesc

/-- GET /centra/:centra_id/batches/weights:
`SELECT Batch_ID, RawWeight, InTimeRaw ... WHERE Centra_ID = ? ORDER BY
InTimeRaw DESC LIMIT 7`. -/
def get_last_seven_batches_weights (db : DB) (centra_id : Nat) : List WeightInfo :=
  ((centraBatchesSorted db centra_id).take 7).map
    fun weight => ⟨weight.Batch_ID, weight.RawWeight, weight.InTimeRaw⟩

/-- GET /centra/:centra_id/batches: `SELECT Batch_ID ... WHERE Centra_ID =
?`, then one `Batch(Batch_ID=...)` per row. The `Batch` model requires
RawWeight, InTimeRaw, Status and Centra_ID, so the first construction raises
ValidationError: with at least one matching row the request ends in a 500;
with none, the comprehension is empty and the empty list is returned. -/
def get_all_batches_from_centra (db : DB) (centra_id : Nat) :
    Except HTTPError (List Batch) :=
  match db.batches.filter (fun b => b.Centra_ID == centra_id) with
  | [] => .ok []
  | _ :: _ => .error ⟨500, "Internal Server Error"⟩

/-- PUT /batch/:batch_id/wet: unconditional UPDATE of the wet triple, response
rebuilt from the request body. -/
def add_wet_weight (db : DB) (batch_id : Nat) (wet : AddWetWeight) :
    WetWeight × DB :=
  (⟨wet.WetWeight, wet.InTimeWet, wet.OutTimeWet⟩,
   { db with batches := db.batches.map fun b =>
       if b.Batch_ID == batch_id then
         { b with InTimeWet := some wet.InTimeWet, OutTimeWet := some wet.OutTimeWet,
                  WetWeight := some wet.WetWeight }
       else b })

/-- PUT /batch/:batch_id/dry. -/
def add_dry_weight (db : DB) (batch_id : Nat) (dry : AddDryWeight) :
    DryWeight × DB :=
  (⟨dry.DryWeight, dry.InTimeDry, dry.OutTimeDry⟩,
   { db with batches := db.batches.map fun b =>
       if b.Batch_ID == batch_id then
         { b with InTimeDry := some dry.InTimeDry, OutTimeDry := some dry.OutTimeDry,
                  DryWeight := some dry.DryWeight }
       else b })

/-- PUT /batch/:batch_id/powder. -/
def add_powder_weight (db : DB) (batch_id : Nat) (powder : AddPowderWeight) :
    PowderWeight × DB :=
  (⟨powder.PowderWeight, powder.InTimePowder, powder.OutTimePowder⟩,
   { db with batches := db.batches.map fun b =>
       if b.Batch_ID == batch_id then
         { b with InTimePowder := some powder.InTimePowder,
                  OutTimePowder := some powder.OutTimePowder,
                  PowderWeight := some powder.PowderWeight }
       else b })

/-- POST /batch: the INSERT of the four raw-stage columns and the commit
succeed, then the handler builds `Batch(Batch_ID=cursor.lastrowid)`; the
`Batch` response model also requires RawWeight, InTimeRaw, Status and
Centra_ID, so pydantic raises ValidationError and the request ends in a 500
with no entity in the response - while the inserted row persists. -/
def add_batch (db : DB) (batch : NewBatch) : Except HTTPError Batch × DB :=
  let batch_id := db.nextBatchId
  (.error ⟨500, "Internal Server Error"⟩,
   { db with
       batches := db.batches ++
         [{ Batch_ID := batch_id, RawWeight := batch.RawWeight,
            InTimeRaw := batch.InTimeRaw, Status := batch.Status,
            Centra_ID := batch.Centra_ID }]
       nextBatchId := db.nextBatchId + 1 })

/-- POST /package: INSERT, echo every field plus the generated id. -/
def add_package (db : DB) (package : NewPackage) : DeliveryInfo × DB :=
  let package_id := db.nextPackageId
  (⟨package_id, package.Status, package.InDeliveryTime, package.ExpeditionType⟩,
   { db with
       deliveries := db.deliveries ++
         [{ Package_ID := package_id, Status := package.Status,
            InDeliveryTime := package.InDeliveryTime,
            ExpeditionType := package.ExpeditionType }]
       nextPackageId := db.nextPackageId + 1 })

/-- PUT /batch/:batch_id/package: the unconditional UPDATE of `Package_ID`
and the commit succeed, then `Batch(Batch_ID=batch_id)` fails validation as
in `add_batch`: a 500 with no entity, while the new link persists. -/
def update_package_id (db : DB) (batch_id : Nat) (package : UpdatePackageID) :
    Except HTTPError Batch × DB :=
  (.error ⟨500, "Internal Server Error"⟩,
   { db with batches := db.batches.map fun b =>
       if b.Batch_ID == batch_id then { b with Package_ID := some package.Package_ID } else b })

/-- GET /centra. -/
def get_all_centra (db : DB) : List Centra :=
  db.centras.map CentraRow.toResponse

/-- One iteration of the dynamic-column UPDATE loop of `update_centra`:
`UPDATE centra SET CentraName = ? WHERE Centra_ID = ?`. -/
def sqlSetCentraName (db : DB) (centra_id : Nat) (v : String) : DB :=
  { db with centras := db.centras.map fun c =>
      if c.Centra_ID == centra_id then { c with CentraName := v } else c }

/-- `UPDATE centra SET CentraAddress = ? WHERE Centra_ID = ?`. -/
def sqlSetCentraAddress (db : DB) (centra_id : Nat) (v : String) : DB :=
  { db with centras := db.centras.map fun c =>
      if c.Centra_ID == centra_id then { c with CentraAddress := v } else c }

/-- `UPDATE centra SET NumberOfEmployees = ? WHERE Centra_ID = ?`. -/
def sqlSetNumberOfEmployees (db : DB) (centra_id : Nat) (v : Int) : DB :=
  { db with centras := db.centras.map fun c =>
      if c.Centra_ID == centra_id then { c with NumberOfEmployees := v } else c }

/-- PUT /centra/:centra_id: pre-checks existence (404 "Centra not found" if
absent), then runs one UPDATE per field present in the body, in field order,
then re-reads the row and returns it. The re-read coming back empty would
crash the handler (server error); it cannot happen since the row exists. -/
def update_centra (db : DB) (centra_id : Nat) (centra : UpdateCentra) :
    Except HTTPError Centra × DB :=
  match db.centras.find? (fun c => c.Centra_ID == centra_id) with
  | none => (.error ⟨404, "Centra not found"⟩, db)
  | some _ =>
    let db1 := match centra.CentraName with
      | some v => sqlSetCentraName db centra_id v
      | none => db
    let db2 := match centra.CentraAddress with
      | some v => sqlSetCentraAddress db1 centra_id v
      | none => db1
    let db3 := match centra.NumberOfEmployees with
      | some v => sqlSetNumberOfEmployees db2 centra_id v
      | none => db2
    match db3.centras.find? (fun c => c.Centra_ID == centra_id) with
    | none => (.error ⟨500, "Internal Server Error"⟩, db3)
    | some updated => (.ok updated.toResponse, db3)

/-- DELETE /centra/:centra_id: SELECT first, 404 if absent, else DELETE and
return the previously fetched row. -/
def delete_centra (db : DB) (centra_id : Nat) : Except HTTPError Centra × DB :=
  match db.centras.find? (fun c => c.Centra_ID == centra_id) with
  | none => (.error ⟨404, "Centra not found"⟩, db)
  | some centra =>
    (.ok centra.toResponse,
     { db with centras := db.centras.filter fun c => !(c.Centra_ID == centra_id) })

/-- DELETE /package/:package_id. -/
def delete_package (db : DB) (package_id : Nat) : Except HTTPError DeliveryInfo × DB :=
  match db.deliveries.find? (fun d => d.Package_ID == package_id) with
  | none => (.error ⟨404, "Package not found"⟩, db)
  | some package =>
    (.ok package.toInfo,
     { db with deliveries := db.deliveries.filter fun d => !(d.Package_ID == package_id) })

/-- DELETE /batch/:batch_id. -/
def delete_batch (db : DB) (batch_id : Nat) : Except HTTPError Batch × DB :=
  match db.batches.find? (fun b => b.Batch_ID == batch_id) with
  | none => (.error ⟨404, "Batch not found"⟩, db)
  | some batch =>
    (.ok batch.toResponse,
     { db with batches := db.batches.filter fun b => !(b.Batch_ID == batch_id) })

/-- POST /centra: INSERT, echo every field plus the generated id. -/
def add_centra (db : DB) (centra : NewCentra) : Centra × DB :=
  let centra_id := db.nextCentraId
  (⟨centra_id, centra.CentraName, centra.CentraAddress, centra.NumberOfEmployees⟩,
   { db with
       centras := db.centras ++
         [{ Centra_ID := centra_id, CentraName := centra.CentraName,
            CentraAddress := centra.CentraAddress,
            NumberOfEmployees := centra.NumberOfEmployees }]
       nextCentraId := db.nextCentraId + 1 })

/-! ### Specification vocabulary and concrete stores -/

/-- Specification helper (from the spec's words on the partial Centra
update): the row with exactly the fields present in the request replaced and
every absent field unchanged. The theorems below compare `update_centra`
against it. -/
def centraPatched (u : UpdateCentra) (c : CentraRow) : CentraRow :=
  { c with
      CentraName := u.CentraName.getD c.CentraName
      CentraAddress := u.CentraAddress.getD c.CentraAddress
      NumberOfEmployees := u.NumberOfEmployees.getD c.NumberOfEmployees }

/-- Specification helper: the row-level effect of the partial Centra update on
one table row - rows with the targeted id are patched, all others are left
alone. -/
def centraPatchRow (u : UpdateCentra) (cid : Nat) (c : CentraRow) : CentraRow :=
  if c.Centra_ID == cid then centraPatched u c else c

/-- An empty store, as created by `create_new_database`. -/
def dbEmpty : DB :=
  { batches := [], centras := [], deliveries := [] }

/-- A batch row holding raw-stage data only, with no linked package. -/
def rowB1 : BatchRow :=
  { Batch_ID := 1, RawWeight := 10, InTimeRaw := 100, Status := "raw", Centra_ID := 1 }

/-- A store whose single batch has no linked package. -/
def dbNoPkg : DB :=
  { batches := [rowB1], centras := [], deliveries := [], nextBatchId := 2 }

/-- A centra row. -/
def rowC1 : CentraRow :=
  { Centra_ID := 1, CentraName := "C", CentraAddress := "A", NumberOfEmployees := 3 }

/-- A delivery row. -/
def rowD1 : DeliveryRow :=
  { Package_ID := 1, Status := "packing", InDeliveryTime := 50, ExpeditionType := "truck" }

/-- A store with one batch, one centra and one delivery. -/
def dbOne : DB :=
  { batches := [rowB1], centras := [rowC1], deliveries := [rowD1],
    nextBatchId := 2, nextCentraId := 2, nextPackageId := 2 }

/-- A second batch of centra 1, created later than `rowB1`. -/
def rowB2 : BatchRow :=
  { Batch_ID := 2, RawWeight := 20, InTimeRaw := 200, Status := "raw", Centra_ID := 1 }

/-- A store with two batches under centra 1, the older one first. -/
def dbTwo : DB :=
  { batches := [rowB1, rowB2], centras := [rowC1], deliveries := [],
    nextBatchId := 3, nextCentraId := 2 }

/-! ### General lemmas about the SQL primitives -/

/-- `fetchone` after a keyed `UPDATE`: when the modification `f` preserves the
`WHERE` predicate, the first matching row of the updated table is `f` of the
first matching row of the original table. -/
theorem find?_map_keyed_update {α : Type} {p : α → Bool} {f g : α → α}
    (hg : ∀ a, g a = if p a then f a else a) (hf : ∀ a, p (f a) = p a) :
    ∀ l : List α, (l.map g).find? p = (l.find? p).map f
  | [] => rfl
  | a :: l => by
    by_cases h : p a
    · simp [List.find?_cons, hg a, h, hf a]
    · simp [List.find?_cons, hg a, h, find?_map_keyed_update hg hf l]

/-- Two keyed `UPDATE`s over the same key compose into one. -/
theorem map_keyed_update_comp {α : Type} {p : α → Bool} {f g q r : α → α}
    (hg : ∀ a, g a = if p a then f a else a)
    (hr : ∀ a, r a = if p a then q a else a)
    (hf : ∀ a, p (f a) = p a) :
    ∀ l : List α, (l.map g).map r = l.map fun a => if p a then q (f a) else a
  | [] => rfl
  | a :: l => by
    by_cases h : p a
    · simp [hg a, hr (f a), h, hf a, map_keyed_update_comp hg hr hf l]
    · simp [hg a, hr a, h, map_keyed_update_comp hg hr hf l]

/-- `fetchone` after `DELETE` with the same key finds nothing. -/
theorem find?_filter_not {α : Type} (p : α → Bool) (l : List α) :
    (l.filter fun a => !(p a)).find? p = none := by
  rw [List.find?_eq_none]
  intro x hx
  have hx' := (List.mem_filter.mp hx).2
  simp only [Bool.not_eq_true'] at hx'
  simp [hx']

/-- `fetchone` with an unsatisfiable predicate finds nothing. -/
theorem find?_false {α : Type} (l : List α) :
    l.find? (fun _ => false) = none :=
  List.find?_eq_none.mpr (fun _ _ => by simp)

/-- In a sorted list, every kept element dominates every element cut by the
`LIMIT`. -/
theorem pairwise_take_drop {α : Type} {R : α → α → Prop} {l : List α}
    (h : l.Pairwise R) (n : Nat) :
    ∀ a ∈ l.take n, ∀ b ∈ l.drop n, R a b := by
  have h' : (l.take n ++ l.drop n).Pairwise R := by
    rw [List.take_append_drop]; exact h
  exact (List.pairwise_append.mp h').2.2

/-- `fetchone` of a centra after the `CentraName` UPDATE. -/
theorem find?_sqlSetCentraName (db : DB) (cid : Nat) (v : String) :
    (sqlSetCentraName db cid v).centras.find? (fun c => c.Centra_ID == cid) =
      (db.centras.find? (fun c => c.Centra_ID == cid)).map
        (fun c => { c with CentraName := v }) :=
  find?_map_keyed_update
    (p := fun c => c.Centra_ID == cid)
    (f := fun c => { c with CentraName := v })
    (g := fun c => if c.Centra_ID == cid then { c with CentraName := v } else c)
    (fun _ => rfl) (fun _ => rfl) db.centras

/-- `fetchone` of a centra after the `CentraAddress` UPDATE. -/
theorem find?_sqlSetCentraAddress (db : DB) (cid : Nat) (v : String) :
    (sqlSetCentraAddress db cid v).centras.find? (fun c => c.Centra_ID == cid) =
      (db.centras.find? (fun c => c.Centra_ID == cid)).map
        (fun c => { c with CentraAddress := v }) :=
  find?_map_keyed_update
    (p := fun c => c.Centra_ID == cid)
    (f := fun c => { c with CentraAddress := v })
    (g := fun c => if c.Centra_ID == cid then { c with CentraAddress := v } else c)
    (fun _ => rfl) (fun _ => rfl) db.centras

/-- `fetchone` of a centra after the `NumberOfEmployees` UPDATE. -/
theorem find?_sqlSetNumberOfEmployees (db : DB) (cid : Nat) (v : Int) :
    (sqlSetNumberOfEmployees db cid v).centras.find? (fun c => c.Centra_ID == cid) =
      (db.centras.find? (fun c => c.Centra_ID == cid)).map
        (fun c => { c with NumberOfEmployees := v }) :=
  find?_map_keyed_update
    (p := fun c => c.Centra_ID == cid)
    (f := fun c => { c with NumberOfEmployees := v })
    (g := fun c => if c.Centra_ID == cid then { c with NumberOfEmployees := v } else c)
    (fun _ => rfl) (fun _ => rfl) db.centras

/-- The `CentraName` UPDATE, phrased against the patched-row abstraction. -/
theorem map_centraPatched_N (cid : Nat) (n : String) (l : List CentraRow) :
    (l.map fun c => if c.Centra_ID == cid then { c with CentraName := n } else c) =
      l.map fun c => if c.Centra_ID == cid then centraPatched ⟨some n, none, none⟩ c
        else c := by
  induction l with
  | nil => rfl
  | cons c t ih =>
    by_cases hc : c.Centra_ID = cid <;> simp [centraPatched, hc, ih]

/-- The `CentraAddress` UPDATE, phrased against the patched-row
abstraction. -/
theorem map_centraPatched_A (cid : Nat) (a : String) (l : List CentraRow) :
    (l.map fun c => if c.Centra_ID == cid then { c with CentraAddress := a } else c) =
      l.map fun c => if c.Centra_ID == cid then centraPatched ⟨none, some a, none⟩ c
        else c := by
  induction l with
  | nil => rfl
  | cons c t ih =>
    by_cases hc : c.Centra_ID = cid <;> simp [centraPatched, hc, ih]

/-- The `NumberOfEmployees` UPDATE, phrased against the patched-row
abstraction. -/
theorem map_centraPatched_E (cid : Nat) (e : Int) (l : List CentraRow) :
    (l.map fun c => if c.Centra_ID == cid then { c with NumberOfEmployees := e } else c) =
      l.map fun c => if c.Centra_ID == cid then centraPatched ⟨none, none, some e⟩ c
        else c := by
  induction l with
  | nil => rfl
  | cons c t ih =>
    by_cases hc : c.Centra_ID = cid <;> simp [centraPatched, hc, ih]

/-- The name and address UPDATEs in sequence. -/
theorem map_centraPatched_NA (cid : Nat) (n a : String) (l : List CentraRow) :
    ((l.map fun c => if c.Centra_ID == cid then { c with CentraName := n } else c).map
        fun c => if c.Centra_ID == cid then { c with CentraAddress := a } else c) =
      l.map fun c => if c.Centra_ID == cid then centraPatched ⟨some n, some a, none⟩ c
        else c := by
  rw [List.map_map]
  refine List.map_congr_left (fun c _ => ?_)
  by_cases hc : c.Centra_ID = cid <;> simp [Function.comp, centraPatched, hc]

/-- The name and employee-count UPDATEs in sequence. -/
theorem map_centraPatched_NE (cid : Nat) (n : String) (e : Int) (l : List CentraRow) :
    ((l.map fun c => if c.Centra_ID == cid then { c with CentraName := n } else c).map
        fun c => if c.Centra_ID == cid then { c with NumberOfEmployees := e } else c) =
      l.map fun c => if c.Centra_ID == cid then centraPatched ⟨some n, none, some e⟩ c
        else c := by
  rw [List.map_map]
  refine List.map_congr_left (fun c _ => ?_)
  by_cases hc : c.Centra_ID = cid <;> simp [Function.comp, centraPatched, hc]

/-- The address and employee-count UPDATEs in sequence. -/
theorem map_centraPatched_AE (cid : Nat) (a : String) (e : Int) (l : List CentraRow) :
    ((l.map fun c => if c.Centra_ID == cid then { c with CentraAddress := a } else c).map
        fun c => if c.Centra_ID == cid then { c with NumberOfEmployees := e } else c) =
      l.map fun c => if c.Centra_ID == cid then centraPatched ⟨none, some a, some e⟩ c
        else c := by
  rw [List.map_map]
  refine List.map_congr_left (fun c _ => ?_)
  by_cases hc : c.Centra_ID = cid <;> simp [Function.comp, centraPatched, hc]

/-- All three UPDATEs in sequence. -/
theorem map_centraPatched_NAE (cid : Nat) (n a : String) (e : Int)
    (l : List CentraRow) :
    (((l.map fun c => if c.Centra_ID == cid then { c with CentraName := n } else c).map
        fun c => if c.Centra_ID == cid then { c with CentraAddress := a } else c).map
      fun c => if c.Centra_ID == cid then { c with NumberOfEmployees := e } else c) =
      l.map fun c => if c.Centra_ID == cid then centraPatched ⟨some n, some a, some e⟩ c
        else c := by
  rw [List.map_map, List.map_map]
  refine List.map_congr_left (fun c _ => ?_)
  by_cases hc : c.Centra_ID = cid <;> simp [Function.comp, centraPatched, hc]

/-- An empty patch maps every row to itself. -/
theorem map_centraPatched_id (cid : Nat) (l : List CentraRow) :
    (l.map fun c => if c.Centra_ID == cid then centraPatched ⟨none, none, none⟩ c
        else c) = l := by
  have h : ∀ c ∈ l,
      (if c.Centra_ID == cid then centraPatched ⟨none, none, none⟩ c else c) = id c := by
    intro c _
    by_cases hc : (c.Centra_ID == cid) = true
    · rw [if_pos hc]; rfl
    · rw [if_neg hc]; rfl
  rw [List.map_congr_left h, List.map_id]

/-- PUT /centra/:centra_id with no matching row: 404, store untouched. -/
theorem update_centra_notfound (db : DB) (cid : Nat) (u : UpdateCentra)
    (hnone : db.centras.find? (fun c => c.Centra_ID == cid) = none) :
    update_centra db cid u = (.error ⟨404, "Centra not found"⟩, db) := by
  simp [update_centra, hnone]

/-- PUT /centra/:centra_id on an existing row: the response is the re-read
patched row and the table is the original with matching rows patched. -/
theorem update_centra_eq (db : DB) (cid : Nat) (u : UpdateCentra)
    (row : CentraRow)
    (hrow : db.centras.find? (fun c => c.Centra_ID == cid) = some row) :
    (update_centra db cid u).fst = .ok (centraPatched u row).toResponse ∧
      (update_centra db cid u).snd =
        { db with centras := db.centras.map (centraPatchRow u cid) } := by
  obtain ⟨n, a, e⟩ := u
  cases n with
  | none =>
    cases a with
    | none =>
      cases e with
      | none =>
        constructor
        · simp only [update_centra, hrow]
          rfl
        · simp only [update_centra, hrow]
          apply DB.ext <;> first | rfl | exact (map_centraPatched_id cid db.centras).symm
      | some ev =>
        have hfind : (sqlSetNumberOfEmployees db cid ev).centras.find?
            (fun c => c.Centra_ID == cid) =
            some (centraPatched ⟨none, none, some ev⟩ row) := by
          rw [find?_sqlSetNumberOfEmployees, hrow]; rfl
        constructor
        · simp only [update_centra, hrow, hfind]
        · simp only [update_centra, hrow, hfind]
          apply DB.ext <;> first | rfl | exact map_centraPatched_E cid ev db.centras
    | some av =>
      cases e with
      | none =>
        have hfind : (sqlSetCentraAddress db cid av).centras.find?
            (fun c => c.Centra_ID == cid) =
            some (centraPatched ⟨none, some av, none⟩ row) := by
          rw [find?_sqlSetCentraAddress, hrow]; rfl
        constructor
        · simp only [update_centra, hrow, hfind]
        · simp only [update_centra, hrow, hfind]
          apply DB.ext <;> first | rfl | exact map_centraPatched_A cid av db.centras
      | some ev =>
        have hfind : (sqlSetNumberOfEmployees (sqlSetCentraAddress db cid av) cid
            ev).centras.find? (fun c => c.Centra_ID == cid) =
            some (centraPatched ⟨none, some av, some ev⟩ row) := by
          rw [find?_sqlSetNumberOfEmployees, find?_sqlSetCentraAddress, hrow]; rfl
        constructor
        · simp only [update_centra, hrow, hfind]
        · simp only [update_centra, hrow, hfind]
          apply DB.ext <;> first | rfl | exact map_centraPatched_AE cid av ev db.centras
  | some nv =>
    cases a with
    | none =>
      cases e with
      | none =>
        have hfind : (sqlSetCentraName db cid nv).centras.find?
            (fun c => c.Centra_ID == cid) =
            some (centraPatched ⟨some nv, none, none⟩ row) := by
          rw [find?_sqlSetCentraName, hrow]; rfl
        constructor
        · simp only [update_centra, hrow, hfind]
        · simp only [update_centra, hrow, hfind]
          apply DB.ext <;> first | rfl | exact map_centraPatched_N cid nv db.centras
      | some ev =>
        have hfind : (sqlSetNumberOfEmployees (sqlSetCentraName db cid nv) cid
            ev).centras.find? (fun c => c.Centra_ID == cid) =
            some (centraPatched ⟨some nv, none, some ev⟩ row) := by
          rw [find?_sqlSetNumberOfEmployees, find?_sqlSetCentraName, hrow]; rfl
        constructor
        · simp only [update_centra, hrow, hfind]
        · simp only [update_centra, hrow, hfind]
          apply DB.ext <;> first | rfl | exact map_centraPatched_NE cid nv ev db.centras
    | some av =>
      cases e with
      | none =>
        have hfind : (sqlSetCentraAddress (sqlSetCentraName db cid nv) cid
            av).centras.find? (fun c => c.Centra_ID == cid) =
            some (centraPatched ⟨some nv, some av, none⟩ row) := by
          rw [find?_sqlSetCentraAddress, find?_sqlSetCentraName, hrow]; rfl
        constructor
        · simp only [update_centra, hrow, hfind]
        · simp only [update_centra, hrow, hfind]
          apply DB.ext <;> first | rfl | exact map_centraPatched_NA cid nv av db.centras
      | some ev =>
        have hfind : (sqlSetNumberOfEmployees (sqlSetCentraAddress
            (sqlSetCentraName db cid nv) cid av) cid ev).centras.find?
            (fun c => c.Centra_ID == cid) =
            some (centraPatched ⟨some nv, some av, some ev⟩ row) := by
          rw [find?_sqlSetNumberOfEmployees, find?_sqlSetCentraAddress,
            find?_sqlSetCentraName, hrow]; rfl
        constructor
        · simp only [update_centra, hrow, hfind]
        · simp only [update_centra, hrow, hfind]
          apply DB.ext <;> first
            | rfl
            | exact map_centraPatched_NAE cid nv av ev db.centras

/-! ### The claims -/

/-- C1: POST /package and POST /centra insert exactly one new row, capture
the generated primary key and echo every request field plus the id; POST
/batch also inserts exactly one row built from the request and captures the
generated key, but it never returns the created entity: the response model
construction fails validation and every POST /batch request ends in a 500,
with the inserted row persisting. -/
theorem c1_create_behavior (db : DB) (nb : NewBatch) (np : NewPackage)
    (nc : NewCentra) :
    ((add_batch db nb).fst = .error ⟨500, "Internal Server Error"⟩ ∧
      (add_batch db nb).snd.batches = db.batches ++
        [{ Batch_ID := db.nextBatchId, RawWeight := nb.RawWeight,
           InTimeRaw := nb.InTimeRaw, Status := nb.Status,
           Centra_ID := nb.Centra_ID }] ∧
      (add_batch db nb).snd.nextBatchId = db.nextBatchId + 1 ∧
      (add_batch db nb).snd.centras = db.centras ∧
      (add_batch db nb).snd.deliveries = db.deliveries) ∧
    ((add_package db np).fst =
        ⟨db.nextPackageId, np.Status, np.InDeliveryTime, np.ExpeditionType⟩ ∧
      (add_package db np).snd.deliveries = db.deliveries ++
        [{ Package_ID := db.nextPackageId, Status := np.Status,
           InDeliveryTime := np.InDeliveryTime,
           ExpeditionType := np.ExpeditionType }] ∧
      (add_package db np).snd.nextPackageId = db.nextPackageId + 1 ∧
      (add_package db np).snd.batches = db.batches ∧
      (add_package db np).snd.centras = db.centras) ∧
    ((add_centra db nc).fst =
        ⟨db.nextCentraId, nc.CentraName, nc.CentraAddress, nc.NumberOfEmployees⟩ ∧
      (add_centra db nc).snd.centras = db.centras ++
        [{ Centra_ID := db.nextCentraId, CentraName := nc.CentraName,
           CentraAddress := nc.CentraAddress,
           NumberOfEmployees := nc.NumberOfEmployees }] ∧
      (add_centra db nc).snd.nextCentraId = db.nextCentraId + 1 ∧
      (add_centra db nc).snd.batches = db.batches ∧
      (add_centra db nc).snd.deliveries = db.deliveries) :=
  ⟨⟨rfl, rfl, rfl, rfl, rfl⟩, ⟨rfl, rfl, rfl, rfl, rfl⟩, ⟨rfl, rfl, rfl, rfl, rfl⟩⟩

/-- C2 (amended): PUT /batch/:id/status returns 404 "Batch not found" exactly
when no batch row has the given id; when the batch exists - even with no
linked package - it echoes the body and sets `Status` on the delivery rows
whose `Package_ID` equals the batch's (a NULL `Package_ID` matches no
delivery, so a batch without a package updates nothing and still
succeeds). -/
theorem c2_delivery_status_semantics (db : DB) (bid : Nat) (st : UpdateStatus) :
    (db.batches.find? (fun b => b.Batch_ID == bid) = none →
      update_delivery_status db bid st = (.error ⟨404, "Batch not found"⟩, db)) ∧
    (∀ row, db.batches.find? (fun b => b.Batch_ID == bid) = some row →
      (update_delivery_status db bid st).fst = .ok st ∧
      (update_delivery_status db bid st).snd.batches = db.batches ∧
      (update_delivery_status db bid st).snd.centras = db.centras ∧
      (update_delivery_status db bid st).snd.deliveries =
        db.deliveries.map (fun d =>
          if nullEq d.Package_ID row.Package_ID then { d with Status := st.Status }
          else d) ∧
      (row.Package_ID = none → update_delivery_status db bid st = (.ok st, db))) := by
  constructor
  · intro h
    simp [update_delivery_status, h]
  · intro row hrow
    refine ⟨?_, ?_, ?_, ?_, ?_⟩
    · simp [update_delivery_status, hrow]
    · simp [update_delivery_status, hrow]
    · simp [update_delivery_status, hrow]
    · simp [update_delivery_status, hrow]
    · intro hpkg
      simp [update_delivery_status, hrow, hpkg, nullEq, List.map_id']

/-- C2 counterexample: the store's only batch exists but has no package; the
claim requires a 404 here, but the handler succeeds, echoes the body and
leaves the store unchanged. -/
theorem c2_counterexample :
    rowB1.Package_ID = none ∧ dbNoPkg.batches = [rowB1] ∧
    update_delivery_status dbNoPkg 1 ⟨"done"⟩ = (.ok ⟨"done"⟩, dbNoPkg) :=
  ⟨rfl, rfl, rfl⟩

/-- C2 witness: the theorem applied to a concrete store, both the missing-id
and the existing-batch branch. -/
theorem c2_witness :
    update_delivery_status dbNoPkg 2 ⟨"x"⟩ = (.error ⟨404, "Batch not found"⟩, dbNoPkg) ∧
    (update_delivery_status dbNoPkg 1 ⟨"x"⟩).fst = .ok ⟨"x"⟩ :=
  ⟨(c2_delivery_status_semantics dbNoPkg 2 ⟨"x"⟩).1 rfl,
   ((c2_delivery_status_semantics dbNoPkg 1 ⟨"x"⟩).2 rowB1 rfl).1⟩

/-- C3: at this concrete input no batch row matches the id, yet PUT
/batch/:id/outdelivery neither succeeds nor echoes the body: the UPDATE sets
the column `WeightRescale` on the `delivery` table, which its schema lacks,
so the statement fails and the handler surfaces a server error. -/
theorem c3_outdelivery_fails :
    dbEmpty.batches.find? (fun b => b.Batch_ID == 1) = none ∧
    update_outdelivery dbEmpty 1 ⟨5, 7⟩ =
      (.error ⟨500, "no such column: WeightRescale"⟩, dbEmpty) :=
  ⟨rfl, rfl⟩

/-- C5: a raw-only create inserts a row whose later-stage columns are all
NULL; fetching it through GET /batch/:id/raw returns the written RawWeight
and InTimeRaw, and the GET /batches listing shows it with every later-stage
field null - but the wet, dry and powder GETs do not return nulls: each
fails with a 500 because its response model requires the NULL columns. -/
theorem c5_raw_only_fetch (db : DB) (nb : NewBatch)
    (hfresh : ∀ b ∈ db.batches, b.Batch_ID ≠ db.nextBatchId) :
    get_raw_weight (add_batch db nb).snd db.nextBatchId =
      .ok ⟨nb.RawWeight, nb.InTimeRaw⟩ ∧
    get_all_batches (add_batch db nb).snd = get_all_batches db ++
      [{ Batch_ID := db.nextBatchId, RawWeight := nb.RawWeight,
         InTimeRaw := nb.InTimeRaw, Status := nb.Status,
         Centra_ID := nb.Centra_ID }] ∧
    get_wet_weight (add_batch db nb).snd db.nextBatchId =
      .error ⟨500, "Internal Server Error"⟩ ∧
    get_dry_weight (add_batch db nb).snd db.nextBatchId =
      .error ⟨500, "Internal Server Error"⟩ ∧
    get_powder_weight (add_batch db nb).snd db.nextBatchId =
      .error ⟨500, "Internal Server Error"⟩ := by
  have hnone : db.batches.find? (fun b => b.Batch_ID == db.nextBatchId) = none :=
    List.find?_eq_none.mpr (fun x hx => by simpa using hfresh x hx)
  refine ⟨?_, ?_, ?_, ?_, ?_⟩
  · simp [get_raw_weight, add_batch, List.find?_append, hnone, List.find?_cons]
  · simp [get_all_batches, add_batch, BatchRow.toResponse]
  · simp [get_wet_weight, add_batch, List.find?_append, hnone, List.find?_cons]
  · simp [get_dry_weight, add_batch, List.find?_append, hnone, List.find?_cons]
  · simp [get_powder_weight, add_batch, List.find?_append, hnone, List.find?_cons]

/-- C5 witness: the theorem applied to the empty store and a concrete
request. -/
theorem c5_witness :
    get_raw_weight (add_batch dbEmpty ⟨10, "received", 1, 5⟩).snd 1 = .ok ⟨10, 5⟩ ∧
    get_wet_weight (add_batch dbEmpty ⟨10, "received", 1, 5⟩).snd 1 =
      .error ⟨500, "Internal Server Error"⟩ :=
  ⟨(c5_raw_only_fetch dbEmpty ⟨10, "received", 1, 5⟩ (by simp [dbEmpty])).1,
   (c5_raw_only_fetch dbEmpty ⟨10, "received", 1, 5⟩ (by simp [dbEmpty])).2.2.1⟩

/-- C4: each DELETE handler SELECTs the row first; if absent it returns 404
with the fixed per-resource message and leaves the store unchanged; otherwise
it deletes the row and returns the previously fetched row's data, after which
the entity is no longer listed and a second delete of the same id returns the
404. -/
theorem c4_delete_semantics (db : DB) (id : Nat) :
    ((db.batches.find? (fun b => b.Batch_ID == id) = none →
        delete_batch db id = (.error ⟨404, "Batch not found"⟩, db)) ∧
      (∀ row, db.batches.find? (fun b => b.Batch_ID == id) = some row →
        (delete_batch db id).fst = .ok row.toResponse ∧
        (∀ x ∈ get_all_batches (delete_batch db id).snd, x.Batch_ID ≠ id) ∧
        (delete_batch (delete_batch db id).snd id).fst =
          .error ⟨404, "Batch not found"⟩)) ∧
    ((db.deliveries.find? (fun d => d.Package_ID == id) = none →
        delete_package db id = (.error ⟨404, "Package not found"⟩, db)) ∧
      (∀ row, db.deliveries.find? (fun d => d.Package_ID == id) = some row →
        (delete_package db id).fst = .ok row.toInfo ∧
        (∀ x ∈ get_all_packages (delete_package db id).snd, x.Package_ID ≠ id) ∧
        (delete_package (delete_package db id).snd id).fst =
          .error ⟨404, "Package not found"⟩)) ∧
    ((db.centras.find? (fun c => c.Centra_ID == id) = none →
        delete_centra db id = (.error ⟨404, "Centra not found"⟩, db)) ∧
      (∀ row, db.centras.find? (fun c => c.Centra_ID == id) = some row →
        (delete_centra db id).fst = .ok row.toResponse ∧
        (∀ x ∈ get_all_centra (delete_centra db id).snd, x.Centra_ID ≠ id) ∧
        (delete_centra (delete_centra db id).snd id).fst =
          .error ⟨404, "Centra not found"⟩)) := by
  refine ⟨⟨?_, ?_⟩, ⟨?_, ?_⟩, ⟨?_, ?_⟩⟩
  · intro h
    simp [delete_batch, h]
  · intro row hrow
    refine ⟨?_, ?_, ?_⟩
    · simp [delete_batch, hrow]
    · intro x hx
      simp only [get_all_batches, delete_batch, hrow, List.mem_map,
        List.mem_filter] at hx
      obtain ⟨a, ⟨_, ha⟩, rfl⟩ := hx
      simp only [BatchRow.toResponse]
      simpa using ha
    · simp [delete_batch, hrow, find?_filter_not, find?_false]
  · intro h
    simp [delete_package, h]
  · intro row hrow
    refine ⟨?_, ?_, ?_⟩
    · simp [delete_package, hrow]
    · intro x hx
      simp only [get_all_packages, delete_package, hrow, List.mem_map,
        List.mem_filter] at hx
      obtain ⟨a, ⟨_, ha⟩, rfl⟩ := hx
      simp only [DeliveryRow.toInfo]
      simpa using ha
    · simp [delete_package, hrow, find?_filter_not, find?_false]
  · intro h
    simp [delete_centra, h]
  · intro row hrow
    refine ⟨?_, ?_, ?_⟩
    · simp [delete_centra, hrow]
    · intro x hx
      simp only [get_all_centra, delete_centra, hrow, List.mem_map,
        List.mem_filter] at hx
      obtain ⟨a, ⟨_, ha⟩, rfl⟩ := hx
      simp only [CentraRow.toResponse]
      simpa using ha
    · simp [delete_centra, hrow, find?_filter_not, find?_false]

/-- C4 witness: the theorem applied to a one-centra store - the delete
returns the fetched row and a second delete of the same id is a 404. -/
theorem c4_witness :
    (delete_centra dbOne 1).fst = .ok ⟨1, "C", "A", 3⟩ ∧
    (delete_centra (delete_centra dbOne 1).snd 1).fst =
      .error ⟨404, "Centra not found"⟩ :=
  ⟨(((c4_delete_semantics dbOne 1).2.2.2 rowC1 rfl).1 : _),
   ((c4_delete_semantics dbOne 1).2.2.2 rowC1 rfl).2.2⟩

/-- C6: for an existing batch, writing the wet, dry or powder stage triple
through its PUT endpoint and reading it back through the matching GET returns
exactly the written weight, in-time and out-time. -/
theorem c6_stage_roundtrip (db : DB) (bid : Nat) (w : AddWetWeight)
    (d : AddDryWeight) (q : AddPowderWeight)
    (h : ∃ row, db.batches.find? (fun b => b.Batch_ID == bid) = some row) :
    get_wet_weight (add_wet_weight db bid w).snd bid =
      .ok ⟨w.WetWeight, w.InTimeWet, w.OutTimeWet⟩ ∧
    get_dry_weight (add_dry_weight db bid d).snd bid =
      .ok ⟨d.DryWeight, d.InTimeDry, d.OutTimeDry⟩ ∧
    get_powder_weight (add_powder_weight db bid q).snd bid =
      .ok ⟨q.PowderWeight, q.InTimePowder, q.OutTimePowder⟩ := by
  obtain ⟨row, hrow⟩ := h
  refine ⟨?_, ?_, ?_⟩
  · have hf := find?_map_keyed_update
      (p := fun b : BatchRow => b.Batch_ID == bid)
      (f := fun b =>
        { b with
            InTimeWet := some w.InTimeWet
            OutTimeWet := some w.OutTimeWet
            WetWeight := some w.WetWeight })
      (g := fun b =>
        if b.Batch_ID == bid then
          { b with
              InTimeWet := some w.InTimeWet
              OutTimeWet := some w.OutTimeWet
              WetWeight := some w.WetWeight }
        else b)
      (fun _ => rfl) (fun _ => rfl) db.batches
    simp only [get_wet_weight, add_wet_weight]
    rw [hf, hrow]
    rfl
  · have hf := find?_map_keyed_update
      (p := fun b : BatchRow => b.Batch_ID == bid)
      (f := fun b =>
        { b with
            InTimeDry := some d.InTimeDry
            OutTimeDry := some d.OutTimeDry
            DryWeight := some d.DryWeight })
      (g := fun b =>
        if b.Batch_ID == bid then
          { b with
              InTimeDry := some d.InTimeDry
              OutTimeDry := some d.OutTimeDry
              DryWeight := some d.DryWeight }
        else b)
      (fun _ => rfl) (fun _ => rfl) db.batches
    simp only [get_dry_weight, add_dry_weight]
    rw [hf, hrow]
    rfl
  · have hf := find?_map_keyed_update
      (p := fun b : BatchRow => b.Batch_ID == bid)
      (f := fun b =>
        { b with
            InTimePowder := some q.InTimePowder
            OutTimePowder := some q.OutTimePowder
            PowderWeight := some q.PowderWeight })
      (g := fun b =>
        if b.Batch_ID == bid then
          { b with
              InTimePowder := some q.InTimePowder
              OutTimePowder := some q.OutTimePowder
              PowderWeight := some q.PowderWeight }
        else b)
      (fun _ => rfl) (fun _ => rfl) db.batches
    simp only [get_powder_weight, add_powder_weight]
    rw [hf, hrow]
    rfl

/-- C6 witness: the theorem applied to a concrete store and payloads. -/
theorem c6_witness :
    get_wet_weight (add_wet_weight dbOne 1 ⟨2, 3, 50⟩).snd 1 =
      .ok ⟨50, 2, 3⟩ :=
  (c6_stage_roundtrip dbOne 1 ⟨2, 3, 50⟩ ⟨0, 0, 0⟩ ⟨0, 0, 0⟩ ⟨rowB1, rfl⟩).1

/-- C7: the weights view of a centra returns at most 7 entries, each reduced
to (Batch_ID, RawWeight, InTimeRaw) of a batch of that centra, ordered by
InTimeRaw descending, and every row cut by the LIMIT has an InTimeRaw no
larger than every kept row - the view is the most recent batches by raw
in-time. -/
theorem c7_recent_weights (db : DB) (cid : Nat) :
    (get_last_seven_batches_weights db cid).length ≤ 7 ∧
    (get_last_seven_batches_weights db cid).Pairwise
      (fun x y => y.InTimeRaw ≤ x.InTimeRaw) ∧
    (∀ w ∈ get_last_seven_batches_weights db cid, ∃ row ∈ db.batches,
      row.Centra_ID = cid ∧ w = ⟨row.Batch_ID, row.RawWeight, row.InTimeRaw⟩) ∧
    (∀ x ∈ (centraBatchesSorted db cid).take 7,
      ∀ y ∈ (centraBatchesSorted db cid).drop 7, y.InTimeRaw ≤ x.InTimeRaw) ∧
    get_last_seven_batches_weights db cid =
      ((centraBatchesSorted db cid).take 7).map
        (fun row => ⟨row.Batch_ID, row.RawWeight, row.InTimeRaw⟩) := by
  have hsorted : (centraBatchesSorted db cid).Pairwise byInTimeRawDesc :=
    List.sorted_insertionSort byInTimeRawDesc
      (db.batches.filter (fun b => b.Centra_ID == cid))
  refine ⟨?_, ?_, ?_, ?_, rfl⟩
  · simp only [get_last_seven_batches_weights, List.length_map, List.length_take]
    exact min_le_left _ _
  · have h7 : ((centraBatchesSorted db cid).take 7).Pairwise byInTimeRawDesc :=
      List.Pairwise.sublist (List.take_sublist 7 _) hsorted
    exact List.pairwise_map.mpr (h7.imp (fun hab => hab))
  · intro w hw
    simp only [get_last_seven_batches_weights, List.mem_map] at hw
    obtain ⟨row, hmem, rfl⟩ := hw
    have h1 : row ∈ centraBatchesSorted db cid :=
      (List.take_sublist 7 _).subset hmem
    have h2 : row ∈ db.batches.filter (fun b => b.Centra_ID == cid) := by
      simpa [centraBatchesSorted, List.mem_insertionSort] using h1
    have h3 := List.mem_filter.mp h2
    exact ⟨row, h3.1, by simpa using h3.2, rfl⟩
  · exact pairwise_take_drop hsorted 7

/-- C7 witness: the theorem applied to a two-batch store. -/
theorem c7_witness :
    (get_last_seven_batches_weights dbTwo 1).length ≤ 7 ∧
    (∃ row ∈ dbTwo.batches, row.Centra_ID = 1 ∧
      (⟨2, 20, 200⟩ : WeightInfo) = ⟨row.Batch_ID, row.RawWeight, row.InTimeRaw⟩) :=
  ⟨(c7_recent_weights dbTwo 1).1,
   (c7_recent_weights dbTwo 1).2.2.1 ⟨2, 20, 200⟩ (by decide)⟩

/-- C8: PUT /centra/:id pre-checks existence and returns 404 "Centra not
found" on a missing id; on an existing row it applies exactly the fields
present in the body, leaves absent fields unchanged, and responds with the
re-read post-update row; an empty body changes nothing and still answers 200
with the current row. -/
theorem c8_partial_centra_update (db : DB) (cid : Nat) (u : UpdateCentra) :
    (db.centras.find? (fun c => c.Centra_ID == cid) = none →
      update_centra db cid u = (.error ⟨404, "Centra not found"⟩, db)) ∧
    (∀ row, db.centras.find? (fun c => c.Centra_ID == cid) = some row →
      (update_centra db cid u).fst = .ok (centraPatched u row).toResponse ∧
      (update_centra db cid u).snd =
        { db with centras := db.centras.map (centraPatchRow u cid) } ∧
      (u.CentraName = none → u.CentraAddress = none → u.NumberOfEmployees = none →
        update_centra db cid u = (.ok row.toResponse, db))) := by
  refine ⟨fun h => update_centra_notfound db cid u h, fun row hrow => ⟨?_, ?_, ?_⟩⟩
  · exact (update_centra_eq db cid u row hrow).1
  · exact (update_centra_eq db cid u row hrow).2
  · intro hn ha he
    obtain ⟨n, a, e⟩ := u
    simp only at hn ha he
    subst hn; subst ha; subst he
    have h12 := update_centra_eq db cid ⟨none, none, none⟩ row hrow
    have hsnd : (update_centra db cid ⟨none, none, none⟩).snd = db := by
      rw [h12.2]
      apply DB.ext <;> first | rfl | exact map_centraPatched_id cid db.centras
    have hfst : (update_centra db cid ⟨none, none, none⟩).fst = .ok row.toResponse := by
      rw [h12.1]; rfl
    calc update_centra db cid ⟨none, none, none⟩
        = ((update_centra db cid ⟨none, none, none⟩).fst,
           (update_centra db cid ⟨none, none, none⟩).snd) := rfl
      _ = (.ok row.toResponse, db) := by rw [hfst, hsnd]

/-- C8 witness: the theorem applied to a one-centra store - a one-field
patch, the empty body, and a missing id. -/
theorem c8_witness :
    (update_centra dbOne 1 ⟨some "X", none, none⟩).fst = .ok ⟨1, "X", "A", 3⟩ ∧
    update_centra dbOne 1 ⟨none, none, none⟩ = (.ok ⟨1, "C", "A", 3⟩, dbOne) ∧
    update_centra dbOne 2 ⟨some "X", none, none⟩ =
      (.error ⟨404, "Centra not found"⟩, dbOne) :=
  ⟨(((c8_partial_centra_update dbOne 1 ⟨some "X", none, none⟩).2 rowC1 rfl).1 : _),
   (((c8_partial_centra_update dbOne 1 ⟨none, none, none⟩).2 rowC1 rfl).2.2
      rfl rfl rfl : _),
   (c8_partial_centra_update dbOne 2 ⟨some "X", none, none⟩).1 rfl⟩

/-- C9: GET /centra/:id/batches never produces the claimed ID-only records:
with no matching batch the comprehension is empty and the empty list is
returned, and with at least one matching batch the first
`Batch(Batch_ID=...)` fails validation (its four other required fields are
missing) and the request ends in a 500. -/
theorem c9_centra_batches_fails (db : DB) (cid : Nat) :
    (db.batches.filter (fun b => b.Centra_ID == cid) = [] →
      get_all_batches_from_centra db cid = .ok []) ∧
    (db.batches.filter (fun b => b.Centra_ID == cid) ≠ [] →
      get_all_batches_from_centra db cid = .error ⟨500, "Internal Server Error"⟩) := by
  constructor
  · intro h
    simp [get_all_batches_from_centra, h]
  · intro h
    rcases hf : db.batches.filter (fun b => b.Centra_ID == cid) with _ | ⟨x, xs⟩
    · exact absurd hf h
    · simp [get_all_batches_from_centra, hf]

/-- C9 witness: the theorem applied to a two-batch store, on a centra with
batches and on one without. -/
theorem c9_witness :
    get_all_batches_from_centra dbTwo 1 = .error ⟨500, "Internal Server Error"⟩ ∧
    get_all_batches_from_centra dbTwo 9 = .ok [] :=
  ⟨(c9_centra_batches_fails dbTwo 1).2 (by decide),
   (c9_centra_batches_fails dbTwo 9).1 rfl⟩

/-- C10: in every handler that can answer 404 the existence check precedes
every mutating statement, so a NotFound reply leaves the store exactly as it
was. -/
theorem c10_notfound_preserves_store (db : DB) (id : Nat) (st : UpdateStatus)
    (u : UpdateCentra) :
    (∀ e, (delete_batch db id).fst = .error e → (delete_batch db id).snd = db) ∧
    (∀ e, (delete_package db id).fst = .error e → (delete_package db id).snd = db) ∧
    (∀ e, (delete_centra db id).fst = .error e → (delete_centra db id).snd = db) ∧
    (∀ e, (update_delivery_status db id st).fst = .error e →
      (update_delivery_status db id st).snd = db) ∧
    (∀ e, (update_centra db id u).fst = .error e → e.status = 404 →
      (update_centra db id u).snd = db) := by
  refine ⟨?_, ?_, ?_, ?_, ?_⟩
  · intro e he
    rcases h : db.batches.find? (fun b => b.Batch_ID == id) with _ | row
    · simp [delete_batch, h]
    · simp [delete_batch, h] at he
  · intro e he
    rcases h : db.deliveries.find? (fun d => d.Package_ID == id) with _ | row
    · simp [delete_package, h]
    · simp [delete_package, h] at he
  · intro e he
    rcases h : db.centras.find? (fun c => c.Centra_ID == id) with _ | row
    · simp [delete_centra, h]
    · simp [delete_centra, h] at he
  · intro e he
    rcases h : db.batches.find? (fun b => b.Batch_ID == id) with _ | row
    · simp [update_delivery_status, h]
    · simp [update_delivery_status, h] at he
  · intro e he h404
    rcases h : db.centras.find? (fun c => c.Centra_ID == id) with _ | row
    · rw [update_centra_notfound db id u h]
    · rw [(update_centra_eq db id u row h).1] at he
      simp at he

/-- C10 witness: the theorem applied to the empty store. -/
theorem c10_witness :
    (delete_batch dbEmpty 1).snd = dbEmpty :=
  (c10_notfound_preserves_store dbEmpty 1 ⟨"s"⟩ ⟨none, none, none⟩).1
    ⟨404, "Batch not found"⟩ rfl

end Moringa
